import Mathlib

/-!
Verification of the analytics aggregation endpoints of the Retinal-AI
backend (Express + Mongoose).  The definitions below are a shallow
embedding of the route module `routes/analytics.js` (the file registered
under `/api/analytics` in the server entrypoint) together with the pieces
of the server it relies on: the role middleware `requireRole`, the Mongoose
document shapes, and the aggregation pipelines the handlers submit.

Modelling conventions:
* A MongoDB collection is a list of documents; `$match` is `List.filter`,
  `$group` is a fold that buckets by key in first-appearance order (the
  natural order MongoDB yields for `$group` output is unspecified; first
  appearance is the canonical deterministic choice), `$sort` is a stable
  insertion sort, `$limit` is `List.take`.
* Floating point confidence scores and metric values are rationals.
* JS `Date` values are epoch milliseconds; the calendar components that the
  database operators `$year`, `$month` and `$dateToString` extract, and the
  cutoffs the handlers compute with `Date` calendar arithmetic
  (`setDate(getDate()-30)`, `setMonth(getMonth()-12)`), are carried as data
  because calendar decomposition is performed by the Date library and the
  database, both external to the code under verification.  The server clock
  is assumed to run in UTC.
* `req.user` is the decoded JWT payload handed over by `authenticateToken`.
* Stored reference fields are ObjectIds while the JWT carries the hex
  string.  Mongoose casts the filters of `countDocuments`, `find` and
  `findOne` against the schema, but hands aggregation pipelines to MongoDB
  verbatim, where equality is type-bracketed: a `$match` comparing the raw
  JWT string with a stored ObjectId matches nothing.  The embedding keeps
  the two id kinds distinct so this difference is preserved.
-/

/-- A point in time as stored in `created_at` fields: epoch milliseconds
plus the calendar components the database date operators extract from it. -/
structure Timestamp where
  ms : Nat
  year : Nat
  month : Nat
  ymd : String
deriving DecidableEq

/-- A BSON ObjectId as stored in `_id` and reference fields.  The schema
casts reference fields to ObjectId on save, so stored `doctor_id` values
are always ObjectIds.  The JWT payload serializes the ObjectId to its hex
string, so `req.user.userId` is a plain string. -/
structure ObjectId where
  hex : String
deriving DecidableEq

/-- Mongoose casting of a string id against an ObjectId schema path, as
applied to the filters of `countDocuments`, `find`, `findOne` and
`findOneAndUpdate`.  (Route ids are hex strings of existing or absent
accounts; the CastError path for malformed ids is outside this model.) -/
def castId (s : String) : ObjectId := ⟨s⟩

/-- A literal value appearing in an aggregation `$match` stage.  Mongoose
does not cast aggregation pipelines: they are handed to MongoDB verbatim,
so a handler that writes the JWT string into a pipeline compares a string
literal against the stored ObjectId. -/
inductive BsonVal where
  | oid (o : ObjectId)
  | str (s : String)
deriving DecidableEq

/-- Type-bracketed BSON equality between a stored ObjectId field and a
`$match` literal: ObjectIds compare by value, and a string literal never
equals an ObjectId. -/
def bsonIdEq (field : ObjectId) (v : BsonVal) : Bool :=
  match v with
  | .oid o => field == o
  | .str _ => false

/-- A document of the `users` collection (the fields analytics touches). -/
structure UserRec where
  id : ObjectId
  role : String
  name : String
  specialty : Option String
  license_number : Option String
deriving DecidableEq

/-- A document of the `patients` collection (the fields analytics touches). -/
structure PatientRec where
  id : ObjectId
  doctor_id : ObjectId
  first_name : String
  last_name : String
  medical_record_number : String
  created_at : Nat
deriving DecidableEq

/-- A document of the `retinalanalyses` collection (the fields analytics
touches).  Nullable schema fields are options. -/
structure RetinalAnalysis where
  doctor_id : ObjectId
  condition_detected : Option String
  severity_level : Option String
  confidence_score : Option ℚ
  voice_consultation_duration : Option ℚ
  created_at : Timestamp
deriving DecidableEq

/-- A document of the `aimodelperformances` collection.  The schema gives
`total_predictions` and `correct_predictions` a default of 0, so they are
always present; the other metric fields have no default. -/
structure PerfRow where
  model_version : String
  accuracy_rate : Option ℚ
  precision_rate : Option ℚ
  recall_rate : Option ℚ
  f1_score : Option ℚ
  total_predictions : ℚ
  correct_predictions : ℚ
  evaluation_date : Nat
deriving DecidableEq

/-- The database state seen by the analytics router. -/
structure DB where
  users : List UserRec
  patients : List PatientRec
  analyses : List RetinalAnalysis
  aiModelPerformances : List PerfRow
deriving DecidableEq

/-- The decoded JWT payload `req.user` produced by `authenticateToken`. -/
structure AuthUser where
  userId : String
  role : String
deriving DecidableEq

/-- The values the overview handlers derive from the system clock with JS
Date calendar arithmetic before querying. -/
structure Clock where
  nowMs : Nat
  thirtyDaysAgoMs : Nat
  twelveMonthsAgoMs : Nat
deriving DecidableEq

/-- The doctor-scoping conjunct
`if (req.user.role === "doctor") query.doctor_id = req.user.userId` as it
takes effect in casted query filters (`countDocuments`, `find`): the JWT
hex string is cast against the ObjectId schema path and compares by value. -/
def queryScope (caller : AuthUser) (docId : ObjectId) : Bool :=
  if caller.role = "doctor" then docId == castId caller.userId else true

/-- The same doctor-scoping conjunct as it takes effect inside aggregation
`$match` stages: the pipeline is not cast, so the raw JWT string is
compared with the stored ObjectId under type bracketing and never matches. -/
def aggScope (caller : AuthUser) (docId : ObjectId) : Bool :=
  if caller.role = "doctor" then bsonIdEq docId (.str caller.userId) else true

/-- One step of `$group` bucketing with `count: { $sum: 1 }`: bump the
bucket of key `k`, or open a new bucket at the end. -/
def bumpCount [DecidableEq α] (acc : List (α × Nat)) (k : α) : List (α × Nat) :=
  match acc with
  | [] => [(k, 1)]
  | (a, n) :: rest => if a = k then (a, n + 1) :: rest else (a, n) :: bumpCount rest k

/-- `$group: { _id: key, count: { $sum: 1 } }`: buckets appear in
first-appearance order of their key. -/
def groupCount [DecidableEq α] (keys : List α) : List (α × Nat) :=
  keys.foldl bumpCount []

/-- One step of `$group` that keeps the documents of each bucket. -/
def bumpGroup [DecidableEq β] (f : α → β) (acc : List (β × List α)) (x : α) :
    List (β × List α) :=
  match acc with
  | [] => [(f x, [x])]
  | (k, xs) :: rest =>
      if k = f x then (k, xs ++ [x]) :: rest else (k, xs) :: bumpGroup f rest x

/-- `$group: { _id: f }` keeping each bucket as a document list, buckets in
first-appearance order of their key. -/
def groupByKey [DecidableEq β] (f : α → β) (l : List α) : List (β × List α) :=
  l.foldl (bumpGroup f) []

/-- Relation of a descending `$sort` on the numeric key `f`; ties keep the
incoming order (MongoDB applies no secondary sort key here). -/
def descBy (f : α → Nat) (a b : α) : Prop := f b ≤ f a

instance (f : α → Nat) : DecidableRel (descBy f) := fun _ _ => Nat.decLe _ _

instance (f : α → Nat) : IsTotal α (descBy f) :=
  ⟨fun a b => Nat.le_total (f b) (f a)⟩

instance (f : α → Nat) : IsTrans α (descBy f) :=
  ⟨fun _ _ _ h1 h2 => Nat.le_trans h2 h1⟩

/-- `$sort: { key: -1 }` on a numeric key, stable. -/
def sortDescBy (f : α → Nat) (l : List α) : List α :=
  l.insertionSort (descBy f)

/-- Relation of `$sort: { "_id.year": 1, "_id.month": 1 }` on (year, month)
group keys. -/
def ymAsc (a b : (Nat × Nat) × Nat) : Prop :=
  a.1.1 < b.1.1 ∨ (a.1.1 = b.1.1 ∧ a.1.2 ≤ b.1.2)

instance : DecidableRel ymAsc := fun a b =>
  inferInstanceAs (Decidable (a.1.1 < b.1.1 ∨ (a.1.1 = b.1.1 ∧ a.1.2 ≤ b.1.2)))

/-- Relation of `$sort: { _id: 1 }` on calendar-date string group keys. -/
def dateAsc (a b : String × Nat) : Prop := a.1 < b.1 ∨ a.1 = b.1

instance : DecidableRel dateAsc := fun a b =>
  inferInstanceAs (Decidable (a.1 < b.1 ∨ a.1 = b.1))

/-- The month-bucket label of the trend pipelines:
`$concat [ $toString year, "-", cond(month < 10, "0" ++ month, month) ]`. -/
def monthLabel (y m : Nat) : String :=
  toString y ++ "-" ++ (if m < 10 then "0" ++ toString m else toString m)

/-- `$avg` over the values of a bucket (the handlers only apply it after
filtering out null scores; an empty bucket is modelled as 0). -/
def avgOf (l : List ℚ) : ℚ := l.sum / l.length

/-- `$min` over a bucket (buckets produced by `$group` are nonempty). -/
def minOf (l : List ℚ) : ℚ :=
  match l with
  | [] => 0
  | v :: vs => vs.foldl min v

/-- `$max` over a bucket. -/
def maxOf (l : List ℚ) : ℚ :=
  match l with
  | [] => 0
  | v :: vs => vs.foldl max v

/-- Left-pad the fractional digits of `toFixed(4)` to width four. -/
def pad4 (k : Nat) : String :=
  if k < 10 then "000" ++ toString k
  else if k < 100 then "00" ++ toString k
  else if k < 1000 then "0" ++ toString k
  else toString k

/-- JS `Number.prototype.toFixed(4)`: round to four decimal places, half
away from zero, and render with exactly four digits after the point. -/
def toFixed4 (q : ℚ) : String :=
  let n : ℤ := ⌊|q| * 10000 + 1 / 2⌋
  (if q < 0 ∧ n ≠ 0 then "-" else "") ++
    toString (n / 10000) ++ "." ++ pad4 (n % 10000).toNat

/-- The `topDoctors` entry shape produced by the admin-only pipeline of
`GET /overview`. -/
structure TopDoctor where
  doctor_name : String
  specialty : Option String
  analysis_count : Nat
deriving DecidableEq

/-- The `aiModelPerformance` entry shape of `GET /overview` (admin only):
one summary per model version. -/
structure ModelVersionSummary where
  model_version : String
  avg_accuracy : ℚ
  total_predictions : ℚ
  last_evaluation : Nat
deriving DecidableEq

/-- The response body of `GET /api/analytics/overview`.  The two admin-only
keys are options: `none` models the key being absent from the JSON. -/
structure OverviewAnalytics where
  totalPatients : Nat
  totalAnalyses : Nat
  recentAnalyses : Nat
  conditionDistribution : List (String × Nat)
  severityDistribution : List (String × Nat)
  monthlyTrends : List (String × Nat)
  averageConfidence : String
  topDoctors : Option (List TopDoctor)
  aiModelPerformance : Option (List ModelVersionSummary)
deriving DecidableEq

/-- The admin-only `topDoctors` pipeline of `GET /overview`: group all
analyses by doctor, join the `users` collection on the id, keep joined rows
whose user role is doctor, project name and specialty, sort by count
descending, limit 10. -/
def topDoctorsOf (db : DB) : List TopDoctor :=
  let grouped := groupCount (db.analyses.map (·.doctor_id))
  let joined := grouped.filterMap fun g =>
    match db.users.find? (fun u => u.id == g.1) with
    | some u => if u.role == "doctor" then some ⟨u.name, u.specialty, g.2⟩ else none
    | none => none
  (sortDescBy TopDoctor.analysis_count joined).take 10

/-- The admin-only `aiModelPerformance` pipeline of `GET /overview`: group
the dedicated performance collection by model version with average
accuracy, summed prediction total and latest evaluation date, sorted by
latest evaluation descending.  `$avg` skips missing values. -/
def aiModelPerformanceOf (db : DB) : List ModelVersionSummary :=
  let grouped := groupByKey PerfRow.model_version db.aiModelPerformances
  let summaries := grouped.map fun g =>
    { model_version := g.1
      avg_accuracy := avgOf (g.2.filterMap (·.accuracy_rate))
      total_predictions := (g.2.map (·.total_predictions)).sum
      last_evaluation := (g.2.map (·.evaluation_date)).foldl max 0 : ModelVersionSummary }
  sortDescBy ModelVersionSummary.last_evaluation summaries

/-- The handler body of `GET /api/analytics/overview`: each metric is an
independent query or aggregation over the collections, scoped to the caller
when the caller is a doctor, merged into one response object.  The two
admin-only blocks are attached only when the caller role is admin.  The
`countDocuments` filters are cast by Mongoose, so their doctor scoping
compares ObjectIds; the four aggregation pipelines are passed uncast, so
their `$match: { doctor_id: <JWT string> }` conjunct never matches. -/
def getOverview (db : DB) (clock : Clock) (caller : AuthUser) : OverviewAnalytics :=
  let condVals := (db.analyses.filter fun a =>
    a.condition_detected.isSome && aggScope caller a.doctor_id).filterMap
      (·.condition_detected)
  let sevVals := (db.analyses.filter fun a =>
    a.severity_level.isSome && aggScope caller a.doctor_id).filterMap
      (·.severity_level)
  let trendGroups := groupCount ((db.analyses.filter fun a =>
    clock.twelveMonthsAgoMs ≤ a.created_at.ms && aggScope caller a.doctor_id).map
      fun a => (a.created_at.year, a.created_at.month))
  let confScores := (db.analyses.filter fun a =>
    a.confidence_score.isSome && aggScope caller a.doctor_id).filterMap
      (·.confidence_score)
  { totalPatients := (db.patients.filter fun p => queryScope caller p.doctor_id).length
    totalAnalyses := (db.analyses.filter fun a => queryScope caller a.doctor_id).length
    recentAnalyses := (db.analyses.filter fun a =>
      clock.thirtyDaysAgoMs ≤ a.created_at.ms && queryScope caller a.doctor_id).length
    conditionDistribution := sortDescBy Prod.snd (groupCount condVals)
    severityDistribution := sortDescBy Prod.snd (groupCount sevVals)
    monthlyTrends := (trendGroups.insertionSort ymAsc).map fun g =>
      (monthLabel g.1.1 g.1.2, g.2)
    averageConfidence :=
      if confScores.isEmpty then "0.0000"
      else toFixed4 (confScores.sum / confScores.length)
    topDoctors := if caller.role = "admin" then some (topDoctorsOf db) else none
    aiModelPerformance :=
      if caller.role = "admin" then some (aiModelPerformanceOf db) else none }

/-- Response of the overview route including the `requireRole` gate. -/
inductive OverviewResponse where
  | forbidden (error : String)
  | ok (body : OverviewAnalytics)
deriving DecidableEq

/-- `GET /api/analytics/overview` behind
`authenticateToken, requireRole(["admin", "doctor"])`. -/
def overviewRoute (db : DB) (clock : Clock) (caller : AuthUser) : OverviewResponse :=
  if ¬ (["admin", "doctor"].contains caller.role) then
    .forbidden "Insufficient permissions"
  else
    .ok (getOverview db clock caller)

/-- The `doctor` field of the per-doctor analytics response:
`User.findOne(...).select("_id name specialty license_number")`. -/
structure DoctorPublic where
  id : ObjectId
  name : String
  specialty : Option String
  license_number : Option String
deriving DecidableEq

/-- The `performanceMetrics` group of the per-doctor analytics: one
`$group: { _id: null }` over the doctor-scoped analyses with conditional
sums per severity.  `$avg` skips null values. -/
structure PerformanceMetrics where
  total_analyses : Nat
  avg_confidence : ℚ
  avg_consultation_time : ℚ
  severe_cases : Nat
  moderate_cases : Nat
  mild_cases : Nat
deriving DecidableEq

/-- The success body of `GET /api/analytics/doctor/:doctorId?`. -/
structure DoctorAnalytics where
  doctor : DoctorPublic
  totalPatients : Nat
  totalAnalyses : Nat
  recentAnalyses : Nat
  conditionDistribution : List (String × Nat)
  averageConfidence : String
  dailyAnalyses : List (String × Nat)
  recentPatients : List PatientRec
  performanceMetrics : Option PerformanceMetrics
deriving DecidableEq

/-- The possible responses of `GET /api/analytics/doctor/:doctorId?`. -/
inductive DoctorAnalyticsResponse where
  | badRequest (error : String)
  | forbidden (error : String)
  | notFound (error : String)
  | ok (body : DoctorAnalytics)
deriving DecidableEq

/-- Whether a per-doctor analytics response carries the success payload. -/
def DoctorAnalyticsResponse.isOk : DoctorAnalyticsResponse → Bool
  | .ok _ => true
  | _ => false

/-- JS falsiness of an optional string (`!doctorId`, `!modelVersion`):
missing or empty. -/
def strFalsy (o : Option String) : Bool :=
  match o with
  | none => true
  | some s => s == ""

/-- JS falsiness of an optional number (`!accuracyRate`): missing or zero. -/
def numFalsy (o : Option ℚ) : Bool :=
  match o with
  | none => true
  | some q => q == 0

/-- The success payload computation of the per-doctor analytics handler for
the resolved route id and the verified doctor.  The queries keep using the
string `doctorId` from the route: `countDocuments` and `find` filters are
cast against the schema and scope correctly, while the four aggregation
pipelines carry the uncast string in their `$match`, which never matches a
stored ObjectId — so `conditionDistribution`, `averageConfidence`,
`dailyAnalyses` and `performanceMetrics` come out empty in the program. -/
def doctorAnalyticsBody (db : DB) (clock : Clock) (doctorId : String)
    (u : UserRec) : DoctorAnalytics :=
  let pipeAnalyses := db.analyses.filter fun a =>
    bsonIdEq a.doctor_id (.str doctorId)
  let condVals := (db.analyses.filter fun a =>
    bsonIdEq a.doctor_id (.str doctorId) && a.condition_detected.isSome).filterMap
      (·.condition_detected)
  let confScores := (db.analyses.filter fun a =>
    bsonIdEq a.doctor_id (.str doctorId) && a.confidence_score.isSome).filterMap
      (·.confidence_score)
  let dailyGroups := groupCount ((db.analyses.filter fun a =>
    bsonIdEq a.doctor_id (.str doctorId) &&
      clock.thirtyDaysAgoMs ≤ a.created_at.ms).map
      fun a => a.created_at.ymd)
  { doctor := ⟨u.id, u.name, u.specialty, u.license_number⟩
    totalPatients := (db.patients.filter fun p =>
      p.doctor_id == castId doctorId).length
    totalAnalyses := (db.analyses.filter fun a =>
      a.doctor_id == castId doctorId).length
    recentAnalyses := (db.analyses.filter fun a =>
      a.doctor_id == castId doctorId &&
        clock.thirtyDaysAgoMs ≤ a.created_at.ms).length
    conditionDistribution := sortDescBy Prod.snd (groupCount condVals)
    averageConfidence :=
      if confScores.isEmpty then "0.0000"
      else toFixed4 (confScores.sum / confScores.length)
    dailyAnalyses := dailyGroups.insertionSort dateAsc
    recentPatients :=
      (sortDescBy PatientRec.created_at
        (db.patients.filter fun p => p.doctor_id == castId doctorId)).take 10
    performanceMetrics :=
      if pipeAnalyses.isEmpty then none
      else some
        { total_analyses := pipeAnalyses.length
          avg_confidence := avgOf (pipeAnalyses.filterMap (·.confidence_score))
          avg_consultation_time :=
            avgOf (pipeAnalyses.filterMap (·.voice_consultation_duration))
          severe_cases := pipeAnalyses.countP (·.severity_level == some "severe")
          moderate_cases := pipeAnalyses.countP (·.severity_level == some "moderate")
          mild_cases := pipeAnalyses.countP (·.severity_level == some "mild") } }

/-- The handler of `GET /api/analytics/doctor/:doctorId?`.  It runs behind
`authenticateToken` only — no `requireRole` gate.  Control flow of the
source: default a missing id to the caller when the caller is a doctor
(400 otherwise), then the ownership check for doctor callers, then the
existence check of the target doctor, then the payload. -/
def getDoctorAnalytics (db : DB) (clock : Clock) (caller : AuthUser)
    (paramDoctorId : Option String) : DoctorAnalyticsResponse :=
  if strFalsy paramDoctorId ∧ caller.role ≠ "doctor" then
    .badRequest "Doctor ID is required for non-doctor users"
  else
    let doctorId := if strFalsy paramDoctorId then caller.userId else paramDoctorId.getD ""
    if caller.role = "doctor" ∧ doctorId ≠ caller.userId then
      .forbidden "Access denied to other doctor analytics"
    else
      match db.users.find? (fun u => u.id == castId doctorId && u.role == "doctor") with
      | none => .notFound "Doctor not found"
      | some u => .ok (doctorAnalyticsBody db clock doctorId u)

/-- The `overallPerformance` group of `GET /api/analytics/ai-performance`:
one `$group: { _id: null }` over the analyses with a non-null confidence
score, with three conditional-sum buckets. -/
structure OverallPerformance where
  total_predictions : Nat
  avg_confidence : ℚ
  high_confidence : Nat
  medium_confidence : Nat
  low_confidence : Nat
deriving DecidableEq

/-- The non-null confidence scores of the whole analyses collection, in
collection order: the `$match: { confidence_score: { $ne: null } }` stage. -/
def confidenceScoresOf (db : DB) : List ℚ :=
  (db.analyses.filter fun a => a.confidence_score.isSome).filterMap
    (·.confidence_score)

/-- The accumulators of the `overallStats` group stage. -/
def overallStatsOf (scores : List ℚ) : OverallPerformance :=
  { total_predictions := scores.length
    avg_confidence := avgOf scores
    high_confidence := scores.countP fun q => decide ((0.9 : ℚ) ≤ q)
    medium_confidence := scores.countP fun q => decide ((0.7 : ℚ) ≤ q ∧ q < 0.9)
    low_confidence := scores.countP fun q => decide (q < (0.7 : ℚ)) }

/-- One `conditionPerformance` entry of `GET /ai-performance`. -/
structure ConditionPerformance where
  condition_detected : String
  total_cases : Nat
  avg_confidence : ℚ
  min_confidence : ℚ
  max_confidence : ℚ
deriving DecidableEq

/-- One `monthlyTrends` entry of `GET /ai-performance`. -/
structure MonthlyPerformance where
  month : String
  total_predictions : Nat
  avg_confidence : ℚ
deriving DecidableEq

/-- The success body of `GET /api/analytics/ai-performance`.  An absent
`overallPerformance` key (the `{}` fallback for an empty collection) is
modelled as `none`. -/
structure AIPerformanceReport where
  overallPerformance : Option OverallPerformance
  conditionPerformance : List ConditionPerformance
  monthlyTrends : List MonthlyPerformance
  modelVersions : List PerfRow
deriving DecidableEq

/-- The handler body of `GET /api/analytics/ai-performance`. -/
def aiPerformanceReport (db : DB) (clock : Clock) : AIPerformanceReport :=
  let scores := confidenceScoresOf db
  let condGroups := groupByKey (fun p : String × ℚ => p.1)
    ((db.analyses.filter fun a =>
      a.condition_detected.isSome && a.confidence_score.isSome).filterMap fun a =>
        match a.condition_detected, a.confidence_score with
        | some c, some q => some (c, q)
        | _, _ => none)
  let condPerf := (sortDescBy (fun c : ConditionPerformance => c.total_cases)
    (condGroups.map fun g =>
      { condition_detected := g.1
        total_cases := g.2.length
        avg_confidence := avgOf (g.2.map Prod.snd)
        min_confidence := minOf (g.2.map Prod.snd)
        max_confidence := maxOf (g.2.map Prod.snd) }))
  let monthGroups := groupByKey (fun p : (Nat × Nat) × ℚ => p.1)
    ((db.analyses.filter fun a =>
      clock.twelveMonthsAgoMs ≤ a.created_at.ms && a.confidence_score.isSome).filterMap
        fun a =>
          match a.confidence_score with
          | some q => some ((a.created_at.year, a.created_at.month), q)
          | none => none)
  let monthSorted := monthGroups.insertionSort fun a b =>
    a.1.1 < b.1.1 ∨ (a.1.1 = b.1.1 ∧ a.1.2 ≤ b.1.2)
  { overallPerformance :=
      if scores.isEmpty then none else some (overallStatsOf scores)
    conditionPerformance := condPerf
    monthlyTrends := monthSorted.map fun g =>
      { month := monthLabel g.1.1 g.1.2
        total_predictions := g.2.length
        avg_confidence := avgOf (g.2.map Prod.snd) }
    modelVersions := sortDescBy PerfRow.evaluation_date db.aiModelPerformances }

/-- The request body of `POST /api/analytics/ai-performance`; every field
may be absent. -/
structure AIPerformanceBody where
  modelVersion : Option String
  accuracyRate : Option ℚ
  precisionRate : Option ℚ
  recallRate : Option ℚ
  f1Score : Option ℚ
  totalPredictions : Option ℚ
  correctPredictions : Option ℚ
deriving DecidableEq

/-- Milliseconds per calendar day. -/
def msPerDay : Nat := 86400000

/-- `new Date().setHours(0, 0, 0, 0)` on a UTC clock: midnight opening the
calendar day of `t`. -/
def startOfDayMs (t : Nat) : Nat := t / msPerDay * msPerDay

/-- `new Date().setHours(23, 59, 59, 999)` on a UTC clock: the last whole
millisecond of the calendar day of `t`. -/
def endOfDayMs (t : Nat) : Nat := startOfDayMs t + (msPerDay - 1)

/-- The calendar day index of an epoch-millisecond timestamp (UTC). -/
def dayOfMs (t : Nat) : Nat := t / msPerDay

/-- The `findOneAndUpdate` filter of the model-performance upsert:
`{ model_version, evaluation_date: { $gte: setHours(0,0,0,0), $lt:
setHours(23,59,59,999) } }` — note the strict `$lt` against the last
millisecond of the day. -/
def matchesDayFilter (v : String) (now : Nat) (r : PerfRow) : Bool :=
  r.model_version == v &&
    decide (startOfDayMs now ≤ r.evaluation_date) &&
    decide (r.evaluation_date < endOfDayMs now)

/-- Mongoose applies the plain update object as a `$set`; fields whose body
value is absent are stripped from the update and keep their stored value. -/
def applyUpdate (r : PerfRow) (b : AIPerformanceBody) (now : Nat) : PerfRow :=
  { model_version := b.modelVersion.getD r.model_version
    accuracy_rate := match b.accuracyRate with | some q => some q | none => r.accuracy_rate
    precision_rate := match b.precisionRate with | some q => some q | none => r.precision_rate
    recall_rate := match b.recallRate with | some q => some q | none => r.recall_rate
    f1_score := match b.f1Score with | some q => some q | none => r.f1_score
    total_predictions := b.totalPredictions.getD r.total_predictions
    correct_predictions := b.correctPredictions.getD r.correct_predictions
    evaluation_date := now }

/-- The document inserted by the upsert when no row matches the filter;
absent numeric totals fall back to the schema default 0. -/
def insertRow (b : AIPerformanceBody) (now : Nat) : PerfRow :=
  { model_version := b.modelVersion.getD ""
    accuracy_rate := b.accuracyRate
    precision_rate := b.precisionRate
    recall_rate := b.recallRate
    f1_score := b.f1Score
    total_predictions := b.totalPredictions.getD 0
    correct_predictions := b.correctPredictions.getD 0
    evaluation_date := now }

/-- `findOneAndUpdate(filter, update, { upsert: true })` over a collection:
update the first matching document, or append the insert document when none
matches. -/
def upsertFirst (p : PerfRow → Bool) (f : PerfRow → PerfRow) (ins : PerfRow) :
    List PerfRow → List PerfRow
  | [] => [ins]
  | r :: rs => if p r then f r :: rs else r :: upsertFirst p f ins rs

/-- The status-bearing responses of `POST /api/analytics/ai-performance`. -/
inductive PostResponse where
  | badRequest (error : String)
  | ok (message : String)
deriving DecidableEq

/-- What a call of the POST handler produces: the HTTP response, the
collection afterwards, and the real-time events broadcast. -/
structure PostOutcome where
  response : PostResponse
  rows : List PerfRow
  broadcasts : List String
deriving DecidableEq

/-- The handler body of `POST /api/analytics/ai-performance` (behind
`authenticateToken, requireRole(["admin"])`): validate with JS falsiness,
upsert the row of (model version, current calendar day), then broadcast
`ai_performance_updated`. -/
def postAIPerformance (rows : List PerfRow) (body : AIPerformanceBody)
    (now : Nat) : PostOutcome :=
  if strFalsy body.modelVersion || numFalsy body.accuracyRate then
    { response := .badRequest "Model version and accuracy rate are required"
      rows := rows
      broadcasts := [] }
  else
    { response := .ok "AI model performance updated successfully"
      rows := upsertFirst (matchesDayFilter (body.modelVersion.getD "") now)
        (fun r => applyUpdate r body now) (insertRow body now) rows
      broadcasts := ["ai_performance_updated"] }

theorem map_fst_bumpCount [DecidableEq α] (acc : List (α × Nat)) (k : α) :
    (bumpCount acc k).map Prod.fst =
      if k ∈ acc.map Prod.fst then acc.map Prod.fst
      else acc.map Prod.fst ++ [k] := by
  induction acc with
  | nil => simp [bumpCount]
  | cons p rest ih =>
    obtain ⟨a, n⟩ := p
    by_cases h : a = k
    · subst h
      simp [bumpCount]
    · simp only [bumpCount, if_neg h, List.map_cons, ih, List.mem_cons]
      by_cases h2 : k ∈ rest.map Prod.fst
      · simp [h2, Ne.symm h]
      · simp [h2, Ne.symm h]

theorem mem_map_fst_foldl_bumpCount [DecidableEq α] (keys : List α)
    (acc : List (α × Nat)) (k : α) :
    k ∈ (keys.foldl bumpCount acc).map Prod.fst ↔
      k ∈ acc.map Prod.fst ∨ k ∈ keys := by
  induction keys generalizing acc with
  | nil => simp
  | cons a keys ih =>
    rw [List.foldl_cons, ih, map_fst_bumpCount]
    by_cases h : a ∈ acc.map Prod.fst
    · rw [if_pos h]
      simp only [List.mem_cons]
      constructor
      · rintro (h1 | h1)
        · exact Or.inl h1
        · exact Or.inr (Or.inr h1)
      · rintro (h1 | h1 | h1)
        · exact Or.inl h1
        · exact Or.inl (h1 ▸ h)
        · exact Or.inr h1
    · rw [if_neg h]
      simp only [List.mem_append, List.mem_singleton, List.mem_cons]
      tauto

theorem mem_map_fst_groupCount [DecidableEq α] (keys : List α) (k : α) :
    k ∈ (groupCount keys).map Prod.fst ↔ k ∈ keys := by
  rw [groupCount, mem_map_fst_foldl_bumpCount]
  simp

theorem nodup_map_fst_bumpCount [DecidableEq α] (acc : List (α × Nat)) (k : α)
    (h : (acc.map Prod.fst).Nodup) : ((bumpCount acc k).map Prod.fst).Nodup := by
  rw [map_fst_bumpCount]
  by_cases h2 : k ∈ acc.map Prod.fst
  · rwa [if_pos h2]
  · rw [if_neg h2, List.nodup_append]
    refine ⟨h, List.nodup_singleton k, ?_⟩
    intro x hx hk
    rw [List.mem_singleton] at hk
    exact h2 (hk ▸ hx)

theorem nodup_map_fst_foldl_bumpCount [DecidableEq α] (keys : List α)
    (acc : List (α × Nat)) (h : (acc.map Prod.fst).Nodup) :
    ((keys.foldl bumpCount acc).map Prod.fst).Nodup := by
  induction keys generalizing acc with
  | nil => exact h
  | cons a keys ih => exact ih _ (nodup_map_fst_bumpCount acc a h)

theorem nodup_map_fst_groupCount [DecidableEq α] (keys : List α) :
    ((groupCount keys).map Prod.fst).Nodup :=
  nodup_map_fst_foldl_bumpCount keys [] (by simp)

theorem sortDescBy_perm (f : α → Nat) (l : List α) :
    (sortDescBy f l).Perm l :=
  List.perm_insertionSort (descBy f) l

theorem mem_sortDescBy (f : α → Nat) (l : List α) (x : α) :
    x ∈ sortDescBy f l ↔ x ∈ l :=
  (sortDescBy_perm f l).mem_iff

theorem sortDescBy_sorted (f : α → Nat) (l : List α) :
    (sortDescBy f l).Pairwise (fun a b => f b ≤ f a) :=
  List.sorted_insertionSort (descBy f) l

theorem countP_confidence_buckets (l : List ℚ) :
    (l.countP fun q => decide ((0.9 : ℚ) ≤ q)) +
      (l.countP fun q => decide ((0.7 : ℚ) ≤ q ∧ q < 0.9)) +
      (l.countP fun q => decide (q < (0.7 : ℚ))) = l.length := by
  induction l with
  | nil => rfl
  | cons q l ih =>
    simp only [List.countP_cons, List.length_cons, decide_eq_true_eq]
    by_cases h1 : q < 0.7
    · have h2 : ¬ (0.9 : ℚ) ≤ q := by
        intro hc
        have : (0.7 : ℚ) < 0.9 := by norm_num
        linarith
      have h3 : ¬ ((0.7 : ℚ) ≤ q ∧ q < 0.9) := fun hc => absurd h1 (not_lt.mpr hc.1)
      simp only [if_pos h1, if_neg h2, if_neg h3]
      omega
    · by_cases h4 : q < 0.9
      · have h5 : (0.7 : ℚ) ≤ q := not_lt.mp h1
        have h2 : ¬ (0.9 : ℚ) ≤ q := not_le.mpr h4
        simp only [if_neg h1, if_neg h2, if_pos (And.intro h5 h4)]
        omega
      · have h5 : (0.9 : ℚ) ≤ q := not_lt.mp h4
        have h3 : ¬ ((0.7 : ℚ) ≤ q ∧ q < 0.9) := fun hc => absurd hc.2 h4
        simp only [if_neg h1, if_neg h3, if_pos h5]
        omega

/-- A doctor account used by the concrete scenarios below. -/
def drSmith : UserRec :=
  { id := ⟨"doc1"⟩, role := "doctor", name := "Dr. Smith"
    specialty := some "Retina", license_number := some "LIC-1" }

/-- A caller authenticated with role patient. -/
def patientCaller : AuthUser := { userId := "pat9", role := "patient" }

/-- A caller authenticated with role doctor, account `doc1`. -/
def doctorCaller : AuthUser := { userId := "doc1", role := "doctor" }

/-- A caller authenticated with role admin. -/
def adminCaller : AuthUser := { userId := "adm1", role := "admin" }

/-- A clock for the concrete scenarios: cutoffs well before the analyses. -/
def exClock : Clock :=
  { nowMs := 1700000000000, thirtyDaysAgoMs := 1697408000000
    twelveMonthsAgoMs := 1668464000000 }

/-- C4 theorem: in the overall statistics of `GET /ai-performance`, the
three confidence-bucket counts always sum to `total_predictions`, which is
the number of analyses with a non-null confidence score. -/
theorem aiPerformance_confidence_buckets_partition (db : DB) (clock : Clock)
    (s : OverallPerformance)
    (h : (aiPerformanceReport db clock).overallPerformance = some s) :
    s.high_confidence + s.medium_confidence + s.low_confidence =
        s.total_predictions ∧
      s.total_predictions = (confidenceScoresOf db).length := by
  unfold aiPerformanceReport at h
  simp only at h
  split at h
  · exact absurd h (by simp)
  · have hs : s = overallStatsOf (confidenceScoresOf db) := (Option.some_inj.mp h).symm
    subst hs
    exact ⟨countP_confidence_buckets (confidenceScoresOf db), rfl⟩

/-- An analysis with confidence score 1 used to witness C4. -/
def c4Analysis : RetinalAnalysis :=
  { doctor_id := ⟨"doc1"⟩, condition_detected := some "CNV"
    severity_level := some "mild", confidence_score := some 1
    voice_consultation_duration := none
    created_at := ⟨1699000000000, 2023, 11, "2023-11-03"⟩ }

/-- The database of the C4 witness. -/
def c4Db : DB :=
  { users := [drSmith], patients := [], analyses := [c4Analysis]
    aiModelPerformances := [] }

/-- The overall statistics the C4 witness database produces. -/
def c4Stats : OverallPerformance :=
  { total_predictions := 1, avg_confidence := 1, high_confidence := 1
    medium_confidence := 0, low_confidence := 0 }

/-- Witness for C4 at a concrete database. -/
theorem aiPerformance_confidence_buckets_partition_witness :
    (aiPerformanceReport c4Db exClock).overallPerformance = some c4Stats ∧
      c4Stats.high_confidence + c4Stats.medium_confidence +
          c4Stats.low_confidence = c4Stats.total_predictions := by
  have h : (aiPerformanceReport c4Db exClock).overallPerformance = some c4Stats := by
    simp only [aiPerformanceReport, confidenceScoresOf, c4Db, c4Analysis,
      overallStatsOf, avgOf, c4Stats]
    norm_num [List.filter, List.filterMap, List.countP, List.countP.go]
  exact ⟨h, (aiPerformance_confidence_buckets_partition c4Db exClock c4Stats h).1⟩

/-- C9 theorem: the POST handler rejects any body whose model version or
accuracy rate is JS-falsy with the 400 message, leaves the collection
untouched and broadcasts nothing. -/
theorem post_ai_performance_rejects_falsy_body (rows : List PerfRow)
    (body : AIPerformanceBody) (now : Nat)
    (h : strFalsy body.modelVersion = true ∨ numFalsy body.accuracyRate = true) :
    postAIPerformance rows body now =
      { response := .badRequest "Model version and accuracy rate are required"
        rows := rows
        broadcasts := [] } := by
  rcases h with h | h <;> simp [postAIPerformance, h]

/-- A POST body with the legitimate numeric accuracy value 0. -/
def c9Body : AIPerformanceBody :=
  { modelVersion := some "v2.1", accuracyRate := some 0, precisionRate := none
    recallRate := none, f1Score := none, totalPredictions := some 500
    correctPredictions := none }

/-- Witness for C9: accuracy rate 0 is falsy, so the write is refused. -/
theorem post_ai_performance_rejects_falsy_body_witness :
    numFalsy c9Body.accuracyRate = true ∧
      postAIPerformance [] c9Body 86400000 =
        { response := .badRequest "Model version and accuracy rate are required"
          rows := []
          broadcasts := [] } :=
  ⟨by decide, post_ai_performance_rejects_falsy_body [] c9Body 86400000
    (Or.inr (by decide))⟩

/-- C10 theorem: for a doctor caller naming any other id, the handler
answers 403 before consulting the database, so independently of whether
that doctor exists. -/
theorem doctor_analytics_ownership_precedes_existence (db : DB) (clock : Clock)
    (caller : AuthUser) (id : String) (hrole : caller.role = "doctor")
    (hid : id ≠ "") (hne : id ≠ caller.userId) :
    getDoctorAnalytics db clock caller (some id) =
      .forbidden "Access denied to other doctor analytics" := by
  simp [getDoctorAnalytics, strFalsy, hid, hrole, hne]

/-- A database with one doctor `doc1`; no user has id `ghost`. -/
def singleDoctorDb : DB := { users := [drSmith], patients := [], analyses := [], aiModelPerformances := [] }

/-- Witness for C10: the doctor `doc1` asking for the nonexistent id
`ghost` receives 403. -/
theorem doctor_analytics_ownership_precedes_existence_witness :
    getDoctorAnalytics singleDoctorDb exClock doctorCaller (some "ghost") =
      .forbidden "Access denied to other doctor analytics" :=
  doctor_analytics_ownership_precedes_existence singleDoctorDb exClock doctorCaller
    "ghost" rfl (by decide) (by decide)

/-- First POST body of the C5 scenario: version v1.0, 100 predictions. -/
def c5Body1 : AIPerformanceBody :=
  { modelVersion := some "v1.0", accuracyRate := some 95
    precisionRate := some 94, recallRate := some 93, f1Score := some 92
    totalPredictions := some 100, correctPredictions := some 95 }

/-- Second POST body of the C5 scenario: same version, 200 predictions. -/
def c5Body2 : AIPerformanceBody :=
  { modelVersion := some "v1.0", accuracyRate := some 96
    precisionRate := some 94, recallRate := some 93, f1Score := some 92
    totalPredictions := some 200, correctPredictions := some 190 }

/-- The last whole millisecond of calendar day 0: 23:59:59.999 UTC. -/
def c5LastMs : Nat := 86399999

/-- C5 theorem (code bug): two accepted upserts of the same model version
within the same UTC calendar day can leave two stored rows for that
(version, day) pair.  The filter bounds the day with a strict `$lt` against
23:59:59.999, so a row written at the final millisecond of the day is
missed by the second call, which inserts instead of updating; both rows
survive, the first still carrying the first call totals. -/
theorem post_ai_performance_same_day_double_row :
    dayOfMs c5LastMs = 0 ∧
      (postAIPerformance (postAIPerformance [] c5Body1 c5LastMs).rows
          c5Body2 c5LastMs).rows.length = 2 ∧
      (postAIPerformance (postAIPerformance [] c5Body1 c5LastMs).rows
          c5Body2 c5LastMs).rows.all
        (fun r => r.model_version == "v1.0" && dayOfMs r.evaluation_date == 0) = true ∧
      (postAIPerformance (postAIPerformance [] c5Body1 c5LastMs).rows
          c5Body2 c5LastMs).rows.map PerfRow.total_predictions = [100, 200] := by
  refine ⟨rfl, rfl, rfl, ?_⟩
  simp [postAIPerformance, c5Body1, c5Body2, strFalsy, numFalsy, c5LastMs,
    upsertFirst, matchesDayFilter, insertRow, startOfDayMs, endOfDayMs, msPerDay]

/-- C1 counterexample: a caller with role patient naming the existing
doctor `doc1` is not refused — the handler lacks a role gate, skips the
ownership check for non-doctor callers, finds the doctor and serves the
analytics payload. -/
theorem patient_receives_doctor_analytics_counterexample :
    patientCaller.role = "patient" ∧
      (singleDoctorDb.users.any fun u => u.id == castId "doc1" && u.role == "doctor") = true ∧
      (getDoctorAnalytics singleDoctorDb exClock patientCaller
        (some "doc1")).isOk = true := by
  decide

/-- C1 amended theorem: the endpoint does not refuse patients as such.  A
patient omitting the id receives 400; a patient naming an id is served the
doctor-analytics payload when a doctor account with that id exists, and
receives 404 otherwise. -/
theorem patient_doctor_analytics_behavior (db : DB) (clock : Clock)
    (caller : AuthUser) (id : String) (hrole : caller.role = "patient")
    (hid : id ≠ "") :
    getDoctorAnalytics db clock caller none =
        .badRequest "Doctor ID is required for non-doctor users" ∧
      ((db.users.find? fun u => u.id == castId id && u.role == "doctor") = none →
        getDoctorAnalytics db clock caller (some id) =
          .notFound "Doctor not found") ∧
      (∀ u, (db.users.find? fun u => u.id == castId id && u.role == "doctor") = some u →
        getDoctorAnalytics db clock caller (some id) =
          .ok (doctorAnalyticsBody db clock id u)) := by
  refine ⟨?_, ?_, ?_⟩
  · simp [getDoctorAnalytics, strFalsy, hrole]
  · intro h
    simp [getDoctorAnalytics, strFalsy, hid, hrole, h]
  · intro u h
    simp [getDoctorAnalytics, strFalsy, hid, hrole, h]

/-- Witness for the C1 amended theorem at a concrete database. -/
theorem patient_doctor_analytics_behavior_witness :
    getDoctorAnalytics singleDoctorDb exClock patientCaller none =
        .badRequest "Doctor ID is required for non-doctor users" ∧
      getDoctorAnalytics singleDoctorDb exClock patientCaller (some "doc1") =
        .ok (doctorAnalyticsBody singleDoctorDb exClock "doc1" drSmith) ∧
      getDoctorAnalytics singleDoctorDb exClock patientCaller (some "ghost") =
        .notFound "Doctor not found" :=
  ⟨(patient_doctor_analytics_behavior singleDoctorDb exClock patientCaller
      "doc1" rfl (by decide)).1,
    (patient_doctor_analytics_behavior singleDoctorDb exClock patientCaller
      "doc1" rfl (by decide)).2.2 drSmith (by decide),
    (patient_doctor_analytics_behavior singleDoctorDb exClock patientCaller
      "ghost" rfl (by decide)).2.1 (by decide)⟩

/-- C2 counterexample: the doctor `doc1` requesting the id `ghost`, for
which no doctor account exists, receives 403 rather than the 404 the claim
asserts for every caller naming a nonexistent id. -/
theorem doctor_nonexistent_id_gets_403_counterexample :
    (singleDoctorDb.users.all fun u => !(u.id == castId "ghost" && u.role == "doctor")) = true ∧
      getDoctorAnalytics singleDoctorDb exClock doctorCaller (some "ghost") =
        .forbidden "Access denied to other doctor analytics" := by
  decide

/-- C2 amended theorem: a doctor naming someone else receives 403 whether
or not that doctor exists; a caller passing the ownership check and naming
an id with no doctor account receives 404; a doctor omitting the id has it
default to the callers own userId. -/
theorem doctor_analytics_error_branches (db : DB) (clock : Clock)
    (caller : AuthUser) (id : String) (hid : id ≠ "") :
    (caller.role = "doctor" → id ≠ caller.userId →
      getDoctorAnalytics db clock caller (some id) =
        .forbidden "Access denied to other doctor analytics") ∧
    ((caller.role = "doctor" → id = caller.userId) →
      (db.users.find? fun u => u.id == castId id && u.role == "doctor") = none →
      getDoctorAnalytics db clock caller (some id) =
        .notFound "Doctor not found") ∧
    (caller.role = "doctor" →
      getDoctorAnalytics db clock caller none =
        getDoctorAnalytics db clock caller (some caller.userId)) := by
  refine ⟨?_, ?_, ?_⟩
  · intro hrole hne
    simp [getDoctorAnalytics, strFalsy, hid, hrole, hne]
  · intro hown h
    by_cases hrole : caller.role = "doctor"
    · have hidq : id = caller.userId := hown hrole
      subst hidq
      simp [getDoctorAnalytics, strFalsy, hid, hrole, h]
    · simp [getDoctorAnalytics, strFalsy, hid, hrole, h]
  · intro hrole
    by_cases huid : caller.userId = ""
    · simp [getDoctorAnalytics, strFalsy, hrole, huid]
    · simp [getDoctorAnalytics, strFalsy, hrole, huid]

/-- Witness for the C2 amended theorem at concrete callers. -/
theorem doctor_analytics_error_branches_witness :
    getDoctorAnalytics singleDoctorDb exClock doctorCaller (some "ghost") =
        .forbidden "Access denied to other doctor analytics" ∧
      getDoctorAnalytics singleDoctorDb exClock adminCaller (some "ghost") =
        .notFound "Doctor not found" ∧
      getDoctorAnalytics singleDoctorDb exClock doctorCaller none =
        getDoctorAnalytics singleDoctorDb exClock doctorCaller (some "doc1") :=
  ⟨(doctor_analytics_error_branches singleDoctorDb exClock doctorCaller
      "ghost" (by decide)).1 rfl (by decide),
    (doctor_analytics_error_branches singleDoctorDb exClock adminCaller
      "ghost" (by decide)).2.1 (fun h => absurd h (by decide)) (by decide),
    (doctor_analytics_error_branches singleDoctorDb exClock doctorCaller
      "doc1" (by decide)).2.2 rfl⟩

/-- The histogram pipeline of a `$group` by key, `$sort: { count: -1 }`:
counts are non-increasing, keys are distinct and are exactly the keys of
the match-stage output. -/
theorem sorted_groupCount_spec [DecidableEq α] (keys : List α) :
    ((sortDescBy Prod.snd (groupCount keys)).Pairwise fun a b => b.2 ≤ a.2) ∧
      ((sortDescBy Prod.snd (groupCount keys)).map Prod.fst).Nodup ∧
      ∀ k, k ∈ (sortDescBy Prod.snd (groupCount keys)).map Prod.fst ↔ k ∈ keys := by
  refine ⟨sortDescBy_sorted Prod.snd (groupCount keys), ?_, ?_⟩
  · exact ((sortDescBy_perm Prod.snd (groupCount keys)).map Prod.fst).nodup_iff.mpr
      (nodup_map_fst_groupCount keys)
  · intro k
    rw [((sortDescBy_perm Prod.snd (groupCount keys)).map Prod.fst).mem_iff]
    exact mem_map_fst_groupCount keys k

/-- C6 amended theorem: in every `GET /overview` payload both histograms
are sorted non-increasingly by count with distinct keys (no further
ordering of equal counts is imposed); for an admin caller the keys range
over the distinct non-null values of all analyses, while for a doctor
caller both histograms are empty — the uncast `$match` compares the JWT
string with the stored ObjectId and matches nothing. -/
theorem overview_histograms_sorted (db : DB) (clock : Clock) (caller : AuthUser) :
    ((getOverview db clock caller).conditionDistribution.Pairwise
        fun a b => b.2 ≤ a.2) ∧
      ((getOverview db clock caller).conditionDistribution.map Prod.fst).Nodup ∧
      ((getOverview db clock caller).severityDistribution.Pairwise
        fun a b => b.2 ≤ a.2) ∧
      ((getOverview db clock caller).severityDistribution.map Prod.fst).Nodup ∧
      (caller.role = "admin" →
        (∀ c, c ∈ (getOverview db clock caller).conditionDistribution.map Prod.fst ↔
          c ∈ (db.analyses.filter fun a => a.condition_detected.isSome).filterMap
            (·.condition_detected)) ∧
        (∀ v, v ∈ (getOverview db clock caller).severityDistribution.map Prod.fst ↔
          v ∈ (db.analyses.filter fun a => a.severity_level.isSome).filterMap
            (·.severity_level))) ∧
      (caller.role = "doctor" →
        (getOverview db clock caller).conditionDistribution = [] ∧
          (getOverview db clock caller).severityDistribution = []) := by
  obtain ⟨hc1, hc2, hc3⟩ := sorted_groupCount_spec
    ((db.analyses.filter fun a =>
      a.condition_detected.isSome && aggScope caller a.doctor_id).filterMap
        (·.condition_detected))
  obtain ⟨hs1, hs2, hs3⟩ := sorted_groupCount_spec
    ((db.analyses.filter fun a =>
      a.severity_level.isSome && aggScope caller a.doctor_id).filterMap
        (·.severity_level))
  refine ⟨hc1, hc2, hs1, hs2, ?_, ?_⟩
  · intro hrole
    have hagg : ∀ x, aggScope caller x = true := by
      intro x
      simp [aggScope, hrole]
    have hcfil : (db.analyses.filter fun a =>
        a.condition_detected.isSome && aggScope caller a.doctor_id) =
        db.analyses.filter fun a => a.condition_detected.isSome := by
      apply List.filter_congr
      intro a _
      rw [hagg, Bool.and_true]
    have hsfil : (db.analyses.filter fun a =>
        a.severity_level.isSome && aggScope caller a.doctor_id) =
        db.analyses.filter fun a => a.severity_level.isSome := by
      apply List.filter_congr
      intro a _
      rw [hagg, Bool.and_true]
    simp only [getOverview]
    rw [hcfil, hsfil]
    exact ⟨fun c => (sorted_groupCount_spec _).2.2 c,
      fun v => (sorted_groupCount_spec _).2.2 v⟩
  · intro hrole
    constructor <;>
      simp [getOverview, aggScope, hrole, bsonIdEq, groupCount, sortDescBy,
        List.insertionSort]

/-- C8 theorem: the overview payload carries the `topDoctors` leaderboard
and the `aiModelPerformance` summary exactly when the caller is an admin;
both keys are absent for a doctor; when present the leaderboard has at most
ten entries sorted by analysis count descending. -/
theorem overview_admin_only_blocks (db : DB) (clock : Clock) (caller : AuthUser) :
    ((getOverview db clock caller).topDoctors.isSome ↔ caller.role = "admin") ∧
      ((getOverview db clock caller).aiModelPerformance.isSome ↔
        caller.role = "admin") ∧
      (caller.role = "doctor" →
        (getOverview db clock caller).topDoctors = none ∧
          (getOverview db clock caller).aiModelPerformance = none) ∧
      (caller.role = "admin" →
        (getOverview db clock caller).topDoctors = some (topDoctorsOf db) ∧
          (topDoctorsOf db).length ≤ 10 ∧
          ((topDoctorsOf db).Pairwise
            fun a b => b.analysis_count ≤ a.analysis_count) ∧
          (getOverview db clock caller).aiModelPerformance =
            some (aiModelPerformanceOf db)) := by
  have hlen : (topDoctorsOf db).length ≤ 10 := by
    simp only [topDoctorsOf]
    exact List.length_take_le 10 _
  have hsorted : (topDoctorsOf db).Pairwise
      fun a b => b.analysis_count ≤ a.analysis_count := by
    simp only [topDoctorsOf]
    exact (sortDescBy_sorted TopDoctor.analysis_count _).sublist
      (List.take_sublist 10 _)
  by_cases h : caller.role = "admin"
  · refine ⟨by simp [getOverview, h], by simp [getOverview, h], ?_, ?_⟩
    · intro hd
      rw [h] at hd
      exact absurd hd (by decide)
    · intro _
      exact ⟨by simp [getOverview, h], hlen, hsorted, by simp [getOverview, h]⟩
  · refine ⟨by simp [getOverview, h], by simp [getOverview, h], ?_, fun hd => absurd hd h⟩
    intro hd
    exact ⟨by simp [getOverview, h], by simp [getOverview, h]⟩

/-- Witness for C8 at a concrete database and the two gated roles. -/
theorem overview_admin_only_blocks_witness :
    (getOverview singleDoctorDb exClock doctorCaller).topDoctors = none ∧
      (getOverview singleDoctorDb exClock doctorCaller).aiModelPerformance = none ∧
      (getOverview singleDoctorDb exClock adminCaller).topDoctors =
        some (topDoctorsOf singleDoctorDb) ∧
      (getOverview singleDoctorDb exClock adminCaller).aiModelPerformance =
        some (aiModelPerformanceOf singleDoctorDb) :=
  ⟨((overview_admin_only_blocks singleDoctorDb exClock doctorCaller).2.2.1 rfl).1,
    ((overview_admin_only_blocks singleDoctorDb exClock doctorCaller).2.2.1 rfl).2,
    ((overview_admin_only_blocks singleDoctorDb exClock adminCaller).2.2.2 rfl).1,
    ((overview_admin_only_blocks singleDoctorDb exClock adminCaller).2.2.2 rfl).2.2.2⟩

/-- C7 theorem: every month bucket of the overview trend series is
labelled `year-month` with the month zero-padded to two digits: for a group
month between 1 and 9 the label ends in the digit prefixed by a zero, and
for months 10 to 12 it ends in the plain two-digit month. -/
theorem overview_month_labels (db : DB) (clock : Clock) (caller : AuthUser)
    (hm : ∀ a ∈ db.analyses, 1 ≤ a.created_at.month ∧ a.created_at.month ≤ 12) :
    ∀ p ∈ (getOverview db clock caller).monthlyTrends,
      ∃ y m cnt, p = (monthLabel y m, cnt) ∧ 1 ≤ m ∧ m ≤ 12 ∧
        (m ≤ 9 → List.IsSuffix ("0" ++ toString m).data p.1.data) ∧
        (10 ≤ m → List.IsSuffix (toString m).data p.1.data) := by
  intro p hp
  simp only [getOverview, List.mem_map] at hp
  obtain ⟨g, hg, hpg⟩ := hp
  have hg2 : g ∈ groupCount ((db.analyses.filter fun a =>
      decide (clock.twelveMonthsAgoMs ≤ a.created_at.ms) &&
        aggScope caller a.doctor_id).map
      fun a => (a.created_at.year, a.created_at.month)) :=
    (List.perm_insertionSort ymAsc _).mem_iff.mp hg
  have hkey := (mem_map_fst_groupCount _ g.1).mp (List.mem_map_of_mem Prod.fst hg2)
  rw [List.mem_map] at hkey
  obtain ⟨a, ha, hae⟩ := hkey
  have hmem : a ∈ db.analyses := (List.mem_filter.mp ha).1
  have hbound := hm a hmem
  have hmonth : g.1.2 = a.created_at.month := by rw [← hae]
  refine ⟨g.1.1, g.1.2, g.2, hpg.symm, by omega, by omega, ?_, ?_⟩
  · intro h9
    have h10 : g.1.2 < 10 := by omega
    have hlabel : p.1 = toString g.1.1 ++ "-" ++ ("0" ++ toString g.1.2) := by
      rw [← hpg]
      simp only [monthLabel, if_pos h10]
    rw [hlabel, String.data_append]
    exact List.suffix_append _ _
  · intro h10
    have hn : ¬ g.1.2 < 10 := by omega
    have hlabel : p.1 = toString g.1.1 ++ "-" ++ toString g.1.2 := by
      rw [← hpg]
      simp only [monthLabel, if_neg hn]
    rw [hlabel, String.data_append]
    exact List.suffix_append _ _

/-- An analysis whose creation month is November, for the C7 witness. -/
def novAnalysis : RetinalAnalysis :=
  { doctor_id := ⟨"doc1"⟩, condition_detected := some "DRUSEN"
    severity_level := some "severe", confidence_score := none
    voice_consultation_duration := none
    created_at := ⟨1699900000000, 2023, 11, "2023-11-13"⟩ }

/-- The database of the C7 witness. -/
def trendDb : DB :=
  { users := [drSmith], patients := [], analyses := [novAnalysis]
    aiModelPerformances := [] }

/-- Witness for C7 at a concrete database whose months are well formed,
called as an admin so the series is nonempty. -/
theorem overview_month_labels_witness :
    (∀ a ∈ trendDb.analyses, 1 ≤ a.created_at.month ∧ a.created_at.month ≤ 12) ∧
      ∀ p ∈ (getOverview trendDb exClock adminCaller).monthlyTrends,
        ∃ y m cnt, p = (monthLabel y m, cnt) ∧ 1 ≤ m ∧ m ≤ 12 ∧
          (m ≤ 9 → List.IsSuffix ("0" ++ toString m).data p.1.data) ∧
          (10 ≤ m → List.IsSuffix (toString m).data p.1.data) :=
  ⟨by decide, overview_month_labels trendDb exClock adminCaller (by decide)⟩

/-- The CNV analysis of the seeded C3 example, confidence 0.95. -/
def cnvAnalysis : RetinalAnalysis :=
  { doctor_id := ⟨"doc1"⟩, condition_detected := some "CNV"
    severity_level := some "moderate", confidence_score := some 0.95
    voice_consultation_duration := none
    created_at := ⟨1699000000000, 2023, 11, "2023-11-03"⟩ }

/-- The DME analysis of the seeded C3 example, confidence 0.82. -/
def dmeAnalysis : RetinalAnalysis :=
  { doctor_id := ⟨"doc1"⟩, condition_detected := some "DME"
    severity_level := some "mild", confidence_score := some 0.82
    voice_consultation_duration := none
    created_at := ⟨1699100000000, 2023, 11, "2023-11-04"⟩ }

/-- The seeded database of C3: one doctor with exactly two analyses. -/
def c3Db : DB :=
  { users := [drSmith], patients := [], analyses := [cnvAnalysis, dmeAnalysis]
    aiModelPerformances := [] }

/-- C3 theorem (code bug): for the seeded database the program answers the
doctor caller with totalAnalyses 2 (the `countDocuments` filter is cast and
scopes correctly) but with an empty condition histogram and an average
confidence of "0.0000" — not the CNV/DME buckets and "0.8850" the claim
states — because the aggregation pipelines carry the uncast JWT string in
their `$match`.  The final conjunct exhibits the two analyses the scoped
histogram was meant to summarize. -/
theorem overview_seeded_example_program_output :
    (getOverview c3Db exClock doctorCaller).totalAnalyses = 2 ∧
      (getOverview c3Db exClock doctorCaller).conditionDistribution = [] ∧
      (getOverview c3Db exClock doctorCaller).averageConfidence = "0.0000" ∧
      ((c3Db.analyses.filter fun a =>
          a.condition_detected.isSome &&
            a.doctor_id == castId doctorCaller.userId).filterMap
          (·.condition_detected)) = ["CNV", "DME"] := by
  decide

/-- C6 counterexample: the doctor caller of the seeded database has two
analyses with non-null detected conditions and severities, yet both
histograms of the response are empty — their keys do not range over the
distinct non-null values of the scoped analyses. -/
theorem overview_doctor_histogram_misses_values_counterexample :
    ((c3Db.analyses.filter fun a =>
        a.condition_detected.isSome &&
          a.doctor_id == castId doctorCaller.userId).filterMap
        (·.condition_detected)) = ["CNV", "DME"] ∧
      (getOverview c3Db exClock doctorCaller).conditionDistribution = [] ∧
      (getOverview c3Db exClock doctorCaller).severityDistribution = [] := by
  decide

/-- Witness for the C6 amended theorem: the admin histogram keys cover the
stored values while the doctor histograms are empty. -/
theorem overview_histograms_sorted_witness :
    (∀ c, c ∈ (getOverview c3Db exClock adminCaller).conditionDistribution.map
        Prod.fst ↔
      c ∈ (c3Db.analyses.filter fun a => a.condition_detected.isSome).filterMap
        (·.condition_detected)) ∧
      (getOverview c3Db exClock doctorCaller).conditionDistribution = [] :=
  ⟨((overview_histograms_sorted c3Db exClock adminCaller).2.2.2.2.1 rfl).1,
    ((overview_histograms_sorted c3Db exClock doctorCaller).2.2.2.2.2 rfl).1⟩
